import Mathlib

/-!
Verification development for the JEDCO data reader script
(src/scripts/data_reader.py).  The script is a linear pipeline:
check dependencies, check the source file, read an Excel worksheet into a
pandas DataFrame, validate column names (advisory only), normalize cell
values to JSON-safe scalars, and write an envelope document to
output/raw_data.json.

The embedding below translates the script shallowly:
- pandas cell values become the inductive `Cell`; the missing sentinel that
  pandas uses for empty cells (NaN for numeric and object columns, NaT for
  datetime and timedelta columns) is the constructor `Cell.cnan`, and the
  Python value None is `Cell.cnone`.
- a DataFrame is a list of named, dtype-tagged columns of cells.
- `convert_to_json_safe` is translated statement by statement over an
  explicit environment holding the variables df and df_copy, so that the
  frame condition (the source frame is never mutated) is visible.
- the orchestrator `main` is a function of a `SysEnv` recording the outcome
  of each effectful stage (dependency check, file check, read, write I/O)
  plus the wall-clock timestamp, mirroring the exact gating structure of
  the Python code, including the fact that `main` ignores the boolean
  returned by `save_to_json`.
- paths: pathlib joins with `/`; when the right operand is an absolute path
  (modelled here in POSIX convention as starting with a slash) the left
  operand is discarded, otherwise the operands are joined with a separator.
  Only this rule of pathlib normalization is modelled; it is the one that
  decides the reachability of the writer guard.
-/

namespace JedcoReader

/-! ### Date, time and duration values -/

/-- A naive Python datetime, as produced by pandas for cells of a
datetime64 column. -/
structure PyDateTime where
  year : Nat
  month : Nat
  day : Nat
  hour : Nat
  minute : Nat
  second : Nat
deriving DecidableEq, Repr

/-- Validity range for the datetimes this pipeline can see.  Python
datetimes satisfy 1 <= year <= 9999; the model additionally assumes
1000 <= year so that the %Y directive always yields exactly four digits
(Excel serial dates start at 1900, so every cell read from the workbook is
in this range). -/
def PyDateTime.valid (d : PyDateTime) : Prop :=
  1000 ≤ d.year ∧ d.year ≤ 9999 ∧ 1 ≤ d.month ∧ d.month ≤ 12 ∧
  1 ≤ d.day ∧ d.day ≤ 31 ∧ d.hour ≤ 23 ∧ d.minute ≤ 59 ∧ d.second ≤ 59

instance (d : PyDateTime) : Decidable d.valid := by
  unfold PyDateTime.valid; infer_instance

/-- A pandas Timedelta (duration), as held by a timedelta64 column.  The
worksheet durations are non-negative, so days is a Nat. -/
structure PyTimeDelta where
  days : Nat
  seconds : Nat
deriving DecidableEq, Repr

/-- The decimal digit character for n % 10. -/
def digitChar (n : Nat) : Char := Char.ofNat (48 + n % 10)

/-- Two-digit zero-padded rendering, as the strftime directives
%m %d %H %M %S produce for in-range values. -/
def pad2 (n : Nat) : List Char := [digitChar (n / 10), digitChar n]

/-- Four-digit rendering of a year, as %Y produces for 1000 <= n <= 9999. -/
def pad4 (n : Nat) : List Char :=
  [digitChar (n / 1000), digitChar (n / 100), digitChar (n / 10), digitChar n]

/-- The strftime format string used at line 200 of the script:
"%Y-%m-%d %H:%M:%S". -/
def strftimeYmdHMS (d : PyDateTime) : String :=
  ⟨pad4 d.year ++ '-' :: (pad2 d.month ++ '-' :: (pad2 d.day ++
    ' ' :: (pad2 d.hour ++ ':' :: (pad2 d.minute ++ ':' :: pad2 d.second))))⟩

/-- Textual rendering of a pandas Timedelta, as astype(str) produces,
for example "2 days 03:04:05". -/
def timedeltaStr (t : PyTimeDelta) : String :=
  toString t.days ++ " days " ++
    ⟨pad2 (t.seconds / 3600) ++ ':' :: (pad2 (t.seconds % 3600 / 60) ++
      ':' :: pad2 (t.seconds % 60))⟩

/-- Checks that a string has exactly the shape YYYY-MM-DD HH:MM:SS:
nineteen characters, digits in the date and time positions, and the
literal separators of the format. -/
def matchesTimestamp (s : String) : Bool :=
  match s.data with
  | [y1, y2, y3, y4, a1, mo1, mo2, a2, d1, d2, a3,
     h1, h2, a4, mi1, mi2, a5, se1, se2] =>
    y1.isDigit && y2.isDigit && y3.isDigit && y4.isDigit && a1 == '-' &&
    mo1.isDigit && mo2.isDigit && a2 == '-' && d1.isDigit && d2.isDigit &&
    a3 == ' ' && h1.isDigit && h2.isDigit && a4 == ':' &&
    mi1.isDigit && mi2.isDigit && a5 == ':' && se1.isDigit && se2.isDigit
  | _ => false

/-! ### Cells, columns and frames -/

/-- A pandas cell value.  `cnan` is the missing sentinel (NaN or NaT) that
pandas stores for an empty source cell; `cnone` is the Python value None.
Numeric cells are modelled as rationals: no claim depends on
floating-point arithmetic, only on numbers passing through unchanged. -/
inductive Cell where
  | cstr (s : String)
  | cnum (q : Rat)
  | cbool (b : Bool)
  | cdatetime (d : PyDateTime)
  | ctimedelta (t : PyTimeDelta)
  | cnan
  | cnone
deriving DecidableEq, Repr

/-- The column dtypes the script distinguishes at lines 199 and 201.
Every dtype other than datetime64[ns] and timedelta64[ns] takes the
fall-through branch, so they are lumped as `other`. -/
inductive DType where
  | datetime64
  | timedelta64
  | other
deriving DecidableEq, Repr

structure Column where
  name : String
  dtype : DType
  cells : List Cell
deriving DecidableEq, Repr

structure DataFrame where
  cols : List Column
deriving DecidableEq, Repr

/-- len(df): the number of rows.  In a pandas frame every column has the
same length; the model reads it off the first column. -/
def DataFrame.nRows (df : DataFrame) : Nat :=
  match df.cols with
  | [] => 0
  | c :: _ => c.cells.length

/-- Rectangularity: every column has the common row count.  This is an
invariant of every pandas DataFrame. -/
def DataFrame.Rect (df : DataFrame) : Prop :=
  ∀ c ∈ df.cols, c.cells.length = df.nRows

/-- Distinct column names, the condition under which to_dict loses no
data.  pandas mangles duplicate header names on read, so frames produced
by read_excel satisfy it. -/
def DataFrame.NodupNames (df : DataFrame) : Prop :=
  (df.cols.map Column.name).Nodup

instance (df : DataFrame) : Decidable df.Rect := by
  unfold DataFrame.Rect; infer_instance

instance (df : DataFrame) : Decidable df.NodupNames := by
  unfold DataFrame.NodupNames; infer_instance

/-! ### The normalizer: convert_to_json_safe, line by line -/

/-- Action of Series.dt.strftime on one cell of a datetime64 column:
an actual datetime is formatted; the missing value NaT is mapped to NaN,
which is still the missing sentinel. -/
def strftimeCell : Cell → Cell
  | .cdatetime d => .cstr (strftimeYmdHMS d)
  | .cnan => .cnan
  | c => c

/-- Action of Series.astype(str) on one cell of a timedelta64 column:
an actual timedelta is rendered; the missing value NaT is rendered too,
as the string "NaT" — str() applied elementwise does not preserve
missingness. -/
def astypeStrCell : Cell → Cell
  | .ctimedelta t => .cstr (timedeltaStr t)
  | .cnan => .cstr "NaT"
  | c => c

/-- Action of DataFrame.where(pd.notnull(df), None) on one cell: cells for
which pd.notnull is False (NaN, NaT, None) are replaced by None, all
others kept. -/
def whereNotnullCell : Cell → Cell
  | .cnan => .cnone
  | .cnone => .cnone
  | c => c

/-- One iteration of the dtype loop at lines 198-202 of the script, for
the column it inspects.  Converted columns become object dtype. -/
def dtypePassCol (c : Column) : Column :=
  match c.dtype with
  | .datetime64 =>
    { name := c.name, dtype := .other, cells := c.cells.map strftimeCell }
  | .timedelta64 =>
    { name := c.name, dtype := .other, cells := c.cells.map astypeStrCell }
  | .other => c

/-- The whole-frame where(...) at line 205, per column. -/
def wherePassCol (c : Column) : Column :=
  { c with cells := c.cells.map whereNotnullCell }

/-- A normalized record: one dictionary of to_dict(orient = records),
as an association list in column order. -/
abbrev Record := List (String × Cell)

/-- Cell of a column at a row index, with the missing sentinel as the
out-of-range default (never used on rectangular frames at valid rows). -/
def Column.cellD (c : Column) (i : Nat) : Cell := c.cells.getD i .cnan

/-- df.to_dict(orient = records): one record per row, each mapping the
column name to the cell of that row. -/
def toRecords (df : DataFrame) : List Record :=
  (List.range df.nRows).map fun i => df.cols.map fun c => (c.name, c.cellD i)

/-- The local variables of convert_to_json_safe. -/
structure ConvEnv where
  df : DataFrame
  df_copy : DataFrame
deriving DecidableEq, Repr

/-- df.copy(): a deep, independent copy, structurally equal to the
source. -/
def copyDF (df : DataFrame) : DataFrame := { cols := df.cols }

/-- Line 195: df_copy = df.copy(). -/
def stmtCopy (df : DataFrame) : ConvEnv := { df := df, df_copy := copyDF df }

/-- Lines 198-202: the dtype conversion loop.  Every assignment in the
loop targets a column of df_copy. -/
def stmtDtypeLoop (e : ConvEnv) : ConvEnv :=
  { e with df_copy := { cols := e.df_copy.cols.map dtypePassCol } }

/-- Line 205: df_copy = df_copy.where(pd.notnull(df_copy), None). -/
def stmtWhere (e : ConvEnv) : ConvEnv :=
  { e with df_copy := { cols := e.df_copy.cols.map wherePassCol } }

/-- convert_to_json_safe (lines 182-210).  The first component is the
records list the function returns; the second is the state of the source
frame df when the function returns, so that the frame condition of the
Normalizer is expressible. -/
def convert_to_json_safe (df : DataFrame) : List Record × DataFrame :=
  let e := stmtCopy df
  let e := stmtDtypeLoop e
  let e := stmtWhere e
  (toRecords e.df_copy, e.df)

/-! ### Configuration constants of the script -/

/-- SHEET_NAME (line 32). -/
def SHEET_NAME : String := "التسجيل"

/-- EXCEL_PATH.name: the file name component of the source path
(line 26). -/
def EXCEL_FILE_NAME : String := "JEDCO_HT.xlsx"

/-- EXPECTED_COLUMNS (lines 37-54): the fixed sixteen expected header
names. -/
def EXPECTED_COLUMNS : List String :=
  ["م", "رقم اللوحة", "الناقل البري", "رقم الرحلة", "عدد الرحلات",
   "عدد الركاب", "نوع التأشيرة", "وقت الإقلاع", "وقت وصول الحافلة",
   "شركة العمرة", "حالة الرحلة", "وضع الرحلة", "حالة الحجز", "الجنسية",
   "الوجهة", "الإجراء المتخذ"]

/-! ### The writer: save_to_json -/

/-- The substring test of the Python `in` operator on strings. -/
def strContains (s pat : String) : Bool := decide (pat.data <:+: s.data)

/-- Whether a path string is absolute in POSIX convention: it starts with
the separator. -/
def isAbsolutePath (p : String) : Bool :=
  match p.data with
  | [] => false
  | c :: _ => c == '/'

/-- str(OUTPUT_DIR / filename): the pathlib join of the output directory
with the filename argument.  OUTPUT_DIR is PROJECT_DIR / "output", where
PROJECT_DIR depends on the install location, so the model is parametric in
it.  Following pathlib, an absolute right operand discards the left
operand; a relative one is appended after a separator. -/
def outputPathStr (projectDir filename : String) : String :=
  if isAbsolutePath filename then filename
  else projectDir ++ "/output/" ++ filename

/-- The metadata object of the export document (lines 238-244). -/
structure Metadata where
  source : String
  sheet : String
  exported_at : String
  total_records : Nat
  columns : List String
deriving DecidableEq, Repr

/-- The export document: metadata plus the data array (lines 237-246). -/
structure Envelope where
  metadata : Metadata
  data : List Record
deriving DecidableEq, Repr

/-- The output_data dictionary built at lines 237-246, given the
datetime.now() timestamp of the run. -/
def mkEnvelope (now : String) (data : List Record) : Envelope :=
  { metadata :=
      { source := EXCEL_FILE_NAME
        sheet := SHEET_NAME
        exported_at := now
        total_records := data.length
        columns := EXPECTED_COLUMNS }
    data := data }

/-- Outcome of one call to save_to_json: the boolean the function returns
and the document that reached the filesystem, if any. -/
structure WriteOutcome where
  result : Bool
  written : Option Envelope
deriving DecidableEq, Repr

/-- Outcomes of the effectful stages of one run, plus the run timestamp:
whether the required libraries import, whether the source file exists,
what read_excel produced (none on any read error), and whether the file
write at lines 249-250 succeeds when attempted. -/
structure SysEnv where
  projectDir : String
  depsOk : Bool
  fileOk : Bool
  readResult : Option DataFrame
  writeOk : Bool
  now : String

/-- save_to_json (lines 213-258): the guard at lines 231-233 refuses when
the string form of the output path does not contain "output", before
anything is written; otherwise the envelope is built and dumped, and any
exception during the write is caught and reported as False. -/
def save_to_json (env : SysEnv) (data : List Record) (filename : String) :
    WriteOutcome :=
  let output_path := outputPathStr env.projectDir filename
  if strContains output_path "output" = false then
    { result := false, written := none }
  else if env.writeOk then
    { result := true, written := some (mkEnvelope env.now data) }
  else
    { result := false, written := none }

/-- main (lines 265-310).  Dependency failure, file absence and read
failure each return 1 immediately; validate_columns always returns True
and gates nothing; the empty-frame branch writes an empty records list;
and the boolean result of save_to_json is ignored in both branches, after
which main returns 0.  The second component records the writer outcome
for observation. -/
def mainRun (env : SysEnv) : Nat × Option WriteOutcome :=
  if env.depsOk = false then (1, none)
  else if env.fileOk = false then (1, none)
  else
    match env.readResult with
    | none => (1, none)
    | some df =>
      if df.nRows = 0 then
        (0, some (save_to_json env [] "raw_data.json"))
      else
        (0, some (save_to_json env (convert_to_json_safe df).1 "raw_data.json"))

end JedcoReader

namespace JedcoReader

/-! ### Helper lemmas -/

theorem digitChar_isDigit (n : Nat) : (digitChar n).isDigit = true := by
  unfold digitChar
  have h : n % 10 < 10 := Nat.mod_lt _ (by decide)
  set m := n % 10 with hm
  interval_cases m <;> decide

/-- Every string produced by the strftime format of the script has
exactly the YYYY-MM-DD HH:MM:SS shape. -/
theorem matchesTimestamp_strftime (d : PyDateTime) :
    matchesTimestamp (strftimeYmdHMS d) = true := by
  simp [strftimeYmdHMS, matchesTimestamp, pad4, pad2, digitChar_isDigit]

/-- Joining a relative filename under the output directory yields a path
whose string form contains the segment "output". -/
theorem strContains_outputPath_relative (projectDir filename : String)
    (hrel : isAbsolutePath filename = false) :
    strContains (outputPathStr projectDir filename) "output" = true := by
  unfold outputPathStr
  rw [hrel]
  simp only [Bool.false_eq_true, if_false]
  unfold strContains
  rw [decide_eq_true_eq]
  have hdata : (projectDir ++ "/output/" ++ filename).data
      = projectDir.data ++ ("/output/".data ++ filename.data) := by
    show (projectDir.data ++ "/output/".data) ++ filename.data
        = projectDir.data ++ ("/output/".data ++ filename.data)
    exact List.append_assoc _ _ _
  rw [hdata]
  have h1 : "output".data <:+: "/output/".data := by decide
  have h2 : "/output/".data <:+:
      projectDir.data ++ ("/output/".data ++ filename.data) := by
    have := List.infix_append projectDir.data "/output/".data filename.data
    rwa [List.append_assoc] at this
  exact h1.trans h2

end JedcoReader

namespace JedcoReader

/-- The per-column effect of the whole normalizer body. -/
def normCol (c : Column) : Column := wherePassCol (dtypePassCol c)

/-- The cell-level effect of the normalizer on a column of the given
dtype. -/
def normCellAt (dt : DType) (cell : Cell) : Cell :=
  whereNotnullCell (match dt with
    | .datetime64 => strftimeCell cell
    | .timedelta64 => astypeStrCell cell
    | .other => cell)

theorem normCol_name (c : Column) : (normCol c).name = c.name := by
  unfold normCol wherePassCol dtypePassCol
  cases c.dtype <;> rfl

theorem normCol_length (c : Column) :
    (normCol c).cells.length = c.cells.length := by
  unfold normCol wherePassCol dtypePassCol
  cases h : c.dtype <;> simp

theorem convert_eq (df : DataFrame) :
    convert_to_json_safe df
      = (toRecords { cols := df.cols.map normCol }, df) := by
  unfold convert_to_json_safe stmtCopy stmtDtypeLoop stmtWhere copyDF
  simp only [List.map_map]
  rfl

theorem normCol_cellD (c : Column) (i : Nat) (cell : Cell)
    (h : c.cells.get? i = some cell) :
    (normCol c).cellD i = normCellAt c.dtype cell := by
  unfold normCol wherePassCol dtypePassCol normCellAt Column.cellD
  rw [List.get?_eq_getElem?] at h
  cases hdt : c.dtype <;>
    simp [List.getD, List.getElem?_map, h]

theorem nRows_map_normCol (df : DataFrame) :
    (DataFrame.mk (df.cols.map normCol)).nRows = df.nRows := by
  unfold DataFrame.nRows
  cases df.cols with
  | nil => rfl
  | cons c cs => simp [normCol_length]

/-- Looking up the name of a member column in an association list built
from the columns finds the value of that column, provided the names are
distinct. -/
theorem lookup_map_name (f : Column → Cell) (col : Column) :
    ∀ (cols : List Column), col ∈ cols → (cols.map Column.name).Nodup →
      (cols.map fun c => (c.name, f c)).lookup col.name = some (f col) := by
  intro cols
  induction cols with
  | nil => intro hmem; cases hmem
  | cons c cs ih =>
    intro hmem hnodup
    rcases List.mem_cons.mp hmem with heq | hmem'
    · subst heq
      simp [List.lookup]
    · have hne : col.name ≠ c.name := by
        have h1 : c.name ∉ cs.map Column.name :=
          (List.nodup_cons.mp hnodup).1
        have h2 : col.name ∈ cs.map Column.name :=
          List.mem_map_of_mem _ hmem'
        intro he
        exact h1 (he ▸ h2)
      have ihr := ih hmem' (List.nodup_cons.mp hnodup).2
      simpa [List.lookup, beq_eq_false_iff_ne.mpr hne] using ihr

/-- The record the normalizer produces for row i, looked up at the name of
a member column, holds the normalized cell of that column. -/
theorem convert_record_lookup (df : DataFrame) (col : Column) (i : Nat)
    (cell : Cell)
    (hcol : col ∈ df.cols) (hcell : col.cells.get? i = some cell)
    (hrect : df.Rect) (hnodup : df.NodupNames) :
    ∃ rec, (convert_to_json_safe df).1.get? i = some rec ∧
      rec.lookup col.name = some (normCellAt col.dtype cell) := by
  have hi : i < df.nRows := by
    have hlen : i < col.cells.length := List.get?_eq_some.mp hcell |>.1
    exact hrect col hcol ▸ hlen
  rw [convert_eq]
  refine ⟨(df.cols.map normCol).map fun c => (c.name, c.cellD i), ?_, ?_⟩
  · unfold toRecords
    rw [nRows_map_normCol]
    rw [List.get?_map, List.get?_range hi]
    rfl
  · have hmap : ((df.cols.map normCol).map fun c => (c.name, c.cellD i))
        = df.cols.map fun c => (c.name, (normCol c).cellD i) := by
      rw [List.map_map]
      apply List.map_congr_left
      intro c _
      simp [Function.comp, normCol_name]
    rw [hmap]
    have := lookup_map_name (fun c => (normCol c).cellD i) col df.cols hcol
      hnodup
    rw [this]
    exact congrArg some (normCol_cellD col i cell hcell)

end JedcoReader

namespace JedcoReader

/-! ### Serialization of the data array (json.dump at line 250) -/

/-- Hexadecimal digit character (lowercase), as json.dump uses in u
escapes. -/
def hexDigitChar (n : Nat) : Char :=
  if n % 16 < 10 then Char.ofNat (48 + n % 16) else Char.ofNat (87 + n % 16)

/-- JSON string escaping as json.dump with ensure_ascii False performs it:
quote, backslash and control characters are escaped, every other
character, including non-ASCII, is written literally. -/
def escapeChar (c : Char) : List Char :=
  if c = '"' then ['\\', '"']
  else if c = '\\' then ['\\', '\\']
  else if c = '\n' then ['\\', 'n']
  else if c = '\t' then ['\\', 't']
  else if c = '\r' then ['\\', 'r']
  else if c.toNat < 32 then
    ['\\', 'u', '0', '0', hexDigitChar (c.toNat / 16), hexDigitChar c.toNat]
  else [c]

def serializeStr (s : String) : String :=
  ⟨'"' :: ((s.data.map escapeChar).join ++ ['"'])⟩

/-- JSON rendering of one normalized scalar, as json.dump emits it.  Raw
datetime and timedelta objects never survive the normalization of typed
columns; they are rendered through their textual forms to keep the
function total (json.dump itself would raise TypeError on them).  NaN is
emitted literally, as json.dump does for a float NaN. -/
def serializeCell : Cell → String
  | .cstr s => serializeStr s
  | .cnum q => toString q
  | .cbool b => if b then "true" else "false"
  | .cdatetime d => serializeStr (strftimeYmdHMS d)
  | .ctimedelta t => serializeStr (timedeltaStr t)
  | .cnan => "NaN"
  | .cnone => "null"

/-- Byte content of one record object of the data array, modulo the fixed
indentation whitespace that json.dump inserts (itself a function of the
same structure). -/
def serializeRecord (r : Record) : String :=
  "\x7b" ++ String.intercalate ", "
    (r.map fun p => serializeStr p.1 ++ ": " ++ serializeCell p.2) ++ "\x7d"

/-- Byte content of the data array of the export document. -/
def serializeRecords (rs : List Record) : String :=
  "[" ++ String.intercalate ", " (rs.map serializeRecord) ++ "]"

/-! ### Further helper lemmas about the writer and the orchestrator -/

/-- Whenever save_to_json writes a document, that document is the envelope
built at lines 237-246 from the records passed in and the timestamp of the
run. -/
theorem written_eq_mkEnvelope (env : SysEnv) (data : List Record)
    (filename : String) (doc : Envelope)
    (h : (save_to_json env data filename).written = some doc) :
    doc = mkEnvelope env.now data := by
  simp only [save_to_json] at h
  by_cases hg :
      strContains (outputPathStr env.projectDir filename) "output" = false
  · rw [if_pos hg] at h
    simp at h
  · rw [if_neg hg] at h
    cases hw : env.writeOk
    · rw [hw] at h
      simp at h
    · rw [hw] at h
      simp only [if_true] at h
      exact (Option.some.inj h).symm

/-- Whenever a run of main reaches the writer and a document is written,
that document holds exactly the records of the branch main took: the empty
list for an empty frame, the output of convert_to_json_safe otherwise. -/
theorem mainRun_written_data (env : SysEnv) (df : DataFrame)
    (o : WriteOutcome) (doc : Envelope)
    (hr : env.readResult = some df)
    (hm : (mainRun env).2 = some o) (hw : o.written = some doc) :
    doc.data = (if df.nRows = 0 then [] else (convert_to_json_safe df).1) := by
  unfold mainRun at hm
  cases hd : env.depsOk
  · rw [hd] at hm; simp at hm
  · cases hf : env.fileOk
    · rw [hd, hf] at hm; simp at hm
    · rw [hd, hf, hr] at hm
      simp only [Bool.true_eq_false, if_false] at hm
      by_cases hn : df.nRows = 0
      · rw [if_pos hn] at hm
        simp only [Option.some.injEq] at hm
        rw [if_pos hn]
        rw [← hm] at hw
        have := written_eq_mkEnvelope env [] "raw_data.json" doc hw
        rw [this]
        rfl
      · rw [if_neg hn] at hm
        simp only [Option.some.injEq] at hm
        rw [if_neg hn]
        rw [← hm] at hw
        have := written_eq_mkEnvelope env (convert_to_json_safe df).1
          "raw_data.json" doc hw
        rw [this]
        rfl

end JedcoReader

namespace JedcoReader

/-! ### Claim theorems -/

/-- A run in which every stage up to the writer succeeds, the frame is
empty, and the file write itself fails with an I/O error. -/
def envWriterFailure : SysEnv :=
  { projectDir := "/home/user/jedco-dashboard-HT", depsOk := true,
    fileOk := true, readResult := some { cols := [] }, writeOk := false,
    now := "2026-01-24T12:00:00" }

/-- C1 counterexample: in a run where the dependency check, the file check
and the read all succeed but the file write fails, save_to_json reports
failure (result false, nothing written), yet main still returns exit code
0 — the orchestrator ignores the boolean returned by the writer, so a
writer failure does not terminate the run with a non-zero status. -/
theorem writer_failure_ignored_by_main :
    (mainRun envWriterFailure).2 = some { result := false, written := none }
      ∧ (mainRun envWriterFailure).1 = 0 := by
  constructor <;> rfl

/-- C1 (amended): main returns exit code 0 exactly when the dependency
check, the file check and the read succeed; the boolean returned by
save_to_json is ignored in both branches of main, so the exit code does
not reflect writer failures. -/
theorem exit_zero_iff_preread_stages_ok (env : SysEnv) :
    (mainRun env).1 = 0 ↔
      (env.depsOk = true ∧ env.fileOk = true ∧
        env.readResult.isSome = true) := by
  cases hd : env.depsOk <;> cases hf : env.fileOk <;>
    cases hr : env.readResult <;>
      simp [mainRun, hd, hf, hr] <;> split <;> rfl

/-- C2: whenever the string form of the resolved output path does not
contain the segment "output", save_to_json returns False and writes
nothing. -/
theorem save_refuses_path_without_output_segment (env : SysEnv)
    (data : List Record) (filename : String)
    (h : strContains (outputPathStr env.projectDir filename) "output"
      = false) :
    save_to_json env data filename = { result := false, written := none } := by
  simp only [save_to_json]
  rw [if_pos h]

/-- C2 witness: the filename "/etc/passwd" is absolute, so the resolved
path escapes the output directory, fails the substring test, and the call
is refused, although the write itself would have succeeded. -/
theorem save_refuses_path_witness :
    save_to_json
      { projectDir := "/home/user/jedco-dashboard-HT", depsOk := true,
        fileOk := true, readResult := none, writeOk := true,
        now := "2026-01-24T12:00:00" } [] "/etc/passwd"
      = { result := false, written := none } :=
  save_refuses_path_without_output_segment _ [] "/etc/passwd" (by decide)

/-- C3 counterexample: the refusal branch of the guard is reachable.  For
the absolute filename argument "/tmp/evil.json" the pathlib join discards
OUTPUT_DIR, the resolved path does not contain "output", the substring
check fails, and save_to_json refuses even though write I/O would have
succeeded. -/
theorem guard_reachable_by_absolute_filename :
    strContains
        (outputPathStr "/home/user/jedco-dashboard-HT" "/tmp/evil.json")
        "output" = false ∧
      save_to_json
        { projectDir := "/home/user/jedco-dashboard-HT", depsOk := true,
          fileOk := true, readResult := none, writeOk := true,
          now := "2026-01-24T12:00:00" } [] "/tmp/evil.json"
        = { result := false, written := none } := by
  constructor <;> rfl

/-- C3 (amended): for every relative filename argument — in particular
every filename containing ".." — the resolved path keeps OUTPUT_DIR as a
prefix, the substring check passes, and save_to_json never refuses on the
guard: its result is decided by the write I/O alone.  The refusal branch
is reachable only through an absolute filename argument. -/
theorem guard_passes_for_relative_filenames (env : SysEnv)
    (data : List Record) (filename : String)
    (hrel : isAbsolutePath filename = false) :
    strContains (outputPathStr env.projectDir filename) "output" = true ∧
      (save_to_json env data filename).result = env.writeOk := by
  have hc := strContains_outputPath_relative env.projectDir filename hrel
  refine ⟨hc, ?_⟩
  simp only [save_to_json, hc]
  cases hw : env.writeOk <;> simp

/-- C3 witness: the relative filename "../../escape.json" contains ".."
yet passes the substring check, and the writer proceeds. -/
theorem guard_passes_for_relative_witness :
    strContains
        (outputPathStr "/home/user/jedco-dashboard-HT" "../../escape.json")
        "output" = true ∧
      (save_to_json
        { projectDir := "/home/user/jedco-dashboard-HT", depsOk := true,
          fileOk := true, readResult := none, writeOk := true,
          now := "2026-01-24T12:00:00" } [] "../../escape.json").result
        = true := by
  have := guard_passes_for_relative_filenames
    { projectDir := "/home/user/jedco-dashboard-HT", depsOk := true,
      fileOk := true, readResult := none, writeOk := true,
      now := "2026-01-24T12:00:00" } [] "../../escape.json" (by decide)
  exact ⟨this.1, this.2⟩

/-- C4: every written export document carries the fixed sixteen-entry
expected-column list in its metadata columns field, whatever records were
passed in — the observed worksheet headers never enter the envelope. -/
theorem written_columns_eq_expected (env : SysEnv) (data : List Record)
    (filename : String) (doc : Envelope)
    (h : (save_to_json env data filename).written = some doc) :
    doc.metadata.columns = EXPECTED_COLUMNS ∧ EXPECTED_COLUMNS.length = 16 := by
  have hd := written_eq_mkEnvelope env data filename doc h
  subst hd
  exact ⟨rfl, rfl⟩

/-- C4 witness: a concrete successful write carries EXPECTED_COLUMNS. -/
theorem written_columns_witness :
    (mkEnvelope "2026-01-24T12:00:00" []).metadata.columns
        = EXPECTED_COLUMNS ∧ EXPECTED_COLUMNS.length = 16 :=
  written_columns_eq_expected
    { projectDir := "/home/user/jedco-dashboard-HT", depsOk := true,
      fileOk := true, readResult := none, writeOk := true,
      now := "2026-01-24T12:00:00" } [] "raw_data.json" _ rfl

/-- C5: in every written envelope, the total_records metadata field equals
the length of the data array. -/
theorem total_records_eq_data_length (env : SysEnv) (data : List Record)
    (filename : String) (doc : Envelope)
    (h : (save_to_json env data filename).written = some doc) :
    doc.metadata.total_records = doc.data.length := by
  have hd := written_eq_mkEnvelope env data filename doc h
  subst hd
  rfl

/-- C5 witness: a concrete write of one record has total_records 1. -/
theorem total_records_witness :
    (mkEnvelope "2026-01-24T12:00:00" [[("م", Cell.cnum 1)]]).metadata.total_records
      = (mkEnvelope "2026-01-24T12:00:00" [[("م", Cell.cnum 1)]]).data.length :=
  total_records_eq_data_length
    { projectDir := "/home/user/jedco-dashboard-HT", depsOk := true,
      fileOk := true, readResult := none, writeOk := true,
      now := "2026-01-24T12:00:00" } [[("م", Cell.cnum 1)]] "raw_data.json"
    _ rfl

end JedcoReader

namespace JedcoReader

/-- C6: every non-missing cell of a datetime64 column — that is, every
cell whose source value is an actual date/time rather than the empty-cell
sentinel NaT — is normalized to a string of exactly the shape
YYYY-MM-DD HH:MM:SS. -/
theorem datetime_cells_format_as_timestamp (df : DataFrame) (col : Column)
    (i : Nat) (d : PyDateTime)
    (hcol : col ∈ df.cols) (hdt : col.dtype = DType.datetime64)
    (hcell : col.cells.get? i = some (Cell.cdatetime d)) (hvalid : d.valid)
    (hrect : df.Rect) (hnodup : df.NodupNames) :
    ((convert_to_json_safe df).1.getD i []).lookup col.name
        = some (Cell.cstr (strftimeYmdHMS d)) ∧
      matchesTimestamp (strftimeYmdHMS d) = true := by
  obtain ⟨rec, h1, h2⟩ :=
    convert_record_lookup df col i _ hcol hcell hrect hnodup
  have hrec : (convert_to_json_safe df).1.getD i [] = rec := by
    unfold List.getD
    rw [h1]
    rfl
  rw [hrec, h2, hdt]
  exact ⟨rfl, matchesTimestamp_strftime d⟩

/-- A one-column frame holding a single actual datetime cell. -/
def colDeparture : Column :=
  { name := "وقت الإقلاع", dtype := DType.datetime64,
    cells := [Cell.cdatetime ⟨2026, 1, 24, 9, 5, 3⟩] }

/-- C6 witness: a concrete departure-time cell is normalized to the
string "2026-01-24 09:05:03", which matches the format. -/
theorem datetime_cells_format_witness :
    ((convert_to_json_safe { cols := [colDeparture] }).1.getD 0 []).lookup
        colDeparture.name
        = some (Cell.cstr (strftimeYmdHMS ⟨2026, 1, 24, 9, 5, 3⟩)) ∧
      matchesTimestamp (strftimeYmdHMS ⟨2026, 1, 24, 9, 5, 3⟩) = true :=
  datetime_cells_format_as_timestamp { cols := [colDeparture] }
    colDeparture 0 ⟨2026, 1, 24, 9, 5, 3⟩ (List.mem_singleton.mpr rfl) rfl
    rfl (by decide) (by decide) (by decide)

/-- A one-column timedelta64 frame whose single cell is missing (NaT). -/
def colArrivalMissing : Column :=
  { name := "وقت وصول الحافلة", dtype := DType.timedelta64,
    cells := [Cell.cnan] }

/-- C7 counterexample: a missing cell of a timedelta64 column does not
become null.  Line 202 of the script runs astype(str) on the whole
column before the null conversion of line 205, so NaT is stringified to
"NaT", which pd.notnull then keeps: the record holds the string "NaT",
not None. -/
theorem missing_timedelta_not_null :
    ((convert_to_json_safe { cols := [colArrivalMissing] }).1.getD 0
        []).lookup "وقت وصول الحافلة" = some (Cell.cstr "NaT") ∧
      Cell.cstr "NaT" ≠ Cell.cnone := by
  exact ⟨rfl, by decide⟩

/-- C7 (amended): a cell that is empty/missing in the source is
normalized to null in every column except a duration-typed (timedelta64)
one, where astype(str) turns the missing sentinel into the string "NaT"
before the null conversion runs. -/
theorem missing_cells_normalize_by_dtype (df : DataFrame) (col : Column)
    (i : Nat) (hcol : col ∈ df.cols)
    (hcell : col.cells.get? i = some Cell.cnan)
    (hrect : df.Rect) (hnodup : df.NodupNames) :
    ((convert_to_json_safe df).1.getD i []).lookup col.name
      = some (if col.dtype = DType.timedelta64 then Cell.cstr "NaT"
              else Cell.cnone) := by
  obtain ⟨rec, h1, h2⟩ :=
    convert_record_lookup df col i _ hcol hcell hrect hnodup
  have hrec : (convert_to_json_safe df).1.getD i [] = rec := by
    unfold List.getD
    rw [h1]
    rfl
  rw [hrec, h2]
  cases hdt : col.dtype <;> rfl

/-- A one-column numeric frame whose single cell is missing. -/
def colNationalityMissing : Column :=
  { name := "الجنسية", dtype := DType.other, cells := [Cell.cnan] }

/-- C7 witness: a missing nationality cell (a non-duration column) is
normalized to None. -/
theorem missing_cells_normalize_witness :
    ((convert_to_json_safe { cols := [colNationalityMissing] }).1.getD 0
        []).lookup colNationalityMissing.name
      = some (if colNationalityMissing.dtype = DType.timedelta64
              then Cell.cstr "NaT" else Cell.cnone) :=
  missing_cells_normalize_by_dtype { cols := [colNationalityMissing] }
    colNationalityMissing 0 (List.mem_singleton.mpr rfl) rfl (by decide)
    (by decide)

/-- C8: when the frame read from the worksheet has zero data rows, main
takes the empty branch, writes a valid envelope with an empty data array
and total_records 0, and returns exit code 0. -/
theorem empty_dataset_exports_empty_envelope (env : SysEnv)
    (df : DataFrame)
    (hd : env.depsOk = true) (hf : env.fileOk = true)
    (hr : env.readResult = some df) (hempty : df.nRows = 0)
    (hw : env.writeOk = true) :
    (mainRun env).1 = 0 ∧
      (mainRun env).2
        = some { result := true, written := some (mkEnvelope env.now []) } ∧
      (mkEnvelope env.now []).data = [] ∧
      (mkEnvelope env.now []).metadata.total_records = 0 := by
  have hguard : strContains (outputPathStr env.projectDir "raw_data.json")
      "output" = true :=
    strContains_outputPath_relative env.projectDir "raw_data.json" rfl
  refine ⟨?_, ?_, rfl, rfl⟩
  · simp [mainRun, hd, hf, hr, hempty]
  · simp [mainRun, hd, hf, hr, hempty, save_to_json, hguard, hw]

/-- A run over an empty worksheet in which every effectful stage
succeeds. -/
def envEmptyRun : SysEnv :=
  { projectDir := "/home/user/jedco-dashboard-HT", depsOk := true,
    fileOk := true, readResult := some { cols := [] }, writeOk := true,
    now := "2026-01-24T12:00:00" }

/-- C8 witness: a concrete empty-worksheet run writes the empty envelope
and exits with 0. -/
theorem empty_dataset_witness :
    (mainRun envEmptyRun).1 = 0 ∧
      (mainRun envEmptyRun).2
        = some { result := true,
                 written := some (mkEnvelope envEmptyRun.now []) } ∧
      (mkEnvelope envEmptyRun.now []).data = [] ∧
      (mkEnvelope envEmptyRun.now []).metadata.total_records = 0 :=
  empty_dataset_exports_empty_envelope envEmptyRun { cols := [] }
    rfl rfl rfl rfl rfl

/-- C9: the Normalizer works on a copy; the source frame df is unchanged
when convert_to_json_safe returns.  Every statement of the function
targets the copy made at line 195, so the df slot of the environment
comes back exactly as it went in. -/
theorem normalizer_preserves_source_frame (df : DataFrame) :
    (convert_to_json_safe df).2 = df := rfl

/-- C10: the data array of the written document is a function of the
frame alone.  Two runs over the same frame — with different timestamps,
install locations or write outcomes — serialize byte-identical data
arrays; only the metadata timestamp of the envelope can differ. -/
theorem data_array_deterministic (e1 e2 : SysEnv) (df : DataFrame)
    (o1 o2 : WriteOutcome) (d1 d2 : Envelope)
    (hr1 : e1.readResult = some df) (hr2 : e2.readResult = some df)
    (hm1 : (mainRun e1).2 = some o1) (hm2 : (mainRun e2).2 = some o2)
    (hw1 : o1.written = some d1) (hw2 : o2.written = some d2) :
    serializeRecords d1.data = serializeRecords d2.data := by
  have h1 := mainRun_written_data e1 df o1 d1 hr1 hm1 hw1
  have h2 := mainRun_written_data e2 df o2 d2 hr2 hm2 hw2
  rw [h1, h2]

/-- A one-row frame for the determinism witness. -/
def dfOneRow : DataFrame :=
  { cols := [{ name := "م", dtype := DType.other,
               cells := [Cell.cnum 1] }] }

/-- C10 witness: two runs over the same one-row frame, started at
different times, produce the same serialized data array. -/
theorem data_array_deterministic_witness :
    serializeRecords (mkEnvelope "2026-01-24T12:00:00"
        (convert_to_json_safe dfOneRow).1).data
      = serializeRecords (mkEnvelope "2026-01-25T08:30:00"
        (convert_to_json_safe dfOneRow).1).data :=
  data_array_deterministic
    { projectDir := "/home/user/jedco-dashboard-HT", depsOk := true,
      fileOk := true, readResult := some dfOneRow, writeOk := true,
      now := "2026-01-24T12:00:00" }
    { projectDir := "/srv/dash/jedco-dashboard-HT", depsOk := true,
      fileOk := true, readResult := some dfOneRow, writeOk := true,
      now := "2026-01-25T08:30:00" }
    dfOneRow _ _ _ _ rfl rfl rfl rfl rfl rfl

end JedcoReader
